import Mathlib

/-!
Verification of the SPEAR python SDK host-agent runtime
(`sdk/python/spear/client.py` and `sdk/python/spear/stream/stream_ctrl.py`)
against its natural-language specification.

Python dictionaries are modelled as association lists with unique keys:
`dictInsert` replaces in place when the key is present (as a dict assignment
does) and appends otherwise; `dictErase` models `del`; `dictLookup` models
subscription / `in`.
-/

namespace Spear

def dictLookup {α : Type} : List (Nat × α) → Nat → Option α
  | [], _ => none
  | (k, v) :: rest, key => if k = key then some v else dictLookup rest key

def dictInsert {α : Type} : List (Nat × α) → Nat → α → List (Nat × α)
  | [], key, v => [(key, v)]
  | (k, w) :: rest, key, v =>
      if k = key then (key, v) :: rest else (k, w) :: dictInsert rest key v

def dictErase {α : Type} (m : List (Nat × α)) (key : Nat) : List (Nat × α) :=
  m.filter (fun kv => kv.1 != key)

theorem dictLookup_dictInsert_self {α : Type} (m : List (Nat × α)) (k : Nat) (v : α) :
    dictLookup (dictInsert m k v) k = some v := by
  induction m with
  | nil => simp [dictInsert, dictLookup]
  | cons hd tl ih =>
      by_cases h : hd.1 = k
      · simp [dictInsert, dictLookup, h]
      · simp [dictInsert, dictLookup, h, ih]

theorem dictLookup_dictErase_self {α : Type} (m : List (Nat × α)) (k : Nat) :
    dictLookup (dictErase m k) k = none := by
  induction m with
  | nil => rfl
  | cons hd tl ih =>
      simp only [dictErase, List.filter_cons] at ih ⊢
      by_cases h : hd.1 = k
      · simp [h, ih]
      · simp [h, dictLookup, ih]

/-!
Per-stream outbound sequence counters, `HostAgent.generate_sequence_id`
(client.py lines 722-733).  The python code is

    if stream_id in self._stream_sequence_ids:
        seq_id = self._stream_sequence_ids[stream_id]
        self._stream_sequence_ids[stream_id] += 1
    else:
        seq_id = 0
        self._stream_sequence_ids[stream_id] = 0
    return seq_id
-/

def generate_sequence_id (stream_sequence_ids : List (Nat × Nat)) (stream_id : Nat) :
    Nat × List (Nat × Nat) :=
  match dictLookup stream_sequence_ids stream_id with
  | some seq_id => (seq_id, dictInsert stream_sequence_ids stream_id (seq_id + 1))
  | none => (0, dictInsert stream_sequence_ids stream_id 0)

/-- An outbound `StreamData` signal; the inner variant payload is opaque to the
sequencing logic and is abstracted away. -/
structure StreamData where
  stream_id : Nat
  sequence_id : Nat
  final : Bool
  deriving DecidableEq

/-- The part of the agent state that the three outbound stream-event senders
touch: the per-stream counters and the queue of outbound StreamData signals in
enqueue order. -/
structure StreamOutState where
  stream_sequence_ids : List (Nat × Nat)
  out_signals : List StreamData
  deriving DecidableEq

/-- Common body of the three senders: take the next sequence id for the stream
via `generate_sequence_id`, wrap the (abstracted) payload as a `StreamData`
signal and enqueue it. -/
def send_stream_data (st : StreamOutState) (stream_id : Nat) (final : Bool) :
    StreamOutState :=
  let r := generate_sequence_id st.stream_sequence_ids stream_id
  { stream_sequence_ids := r.2,
    out_signals := st.out_signals ++ [⟨stream_id, r.1, final⟩] }

/-- `HostAgent.send_operation_event` (client.py 735-771), payload abstracted. -/
def send_operation_event (st : StreamOutState) (stream_id : Nat) (final : Bool) :
    StreamOutState :=
  send_stream_data st stream_id final

/-- `HostAgent.send_notification_event` (client.py 773-807), payload abstracted. -/
def send_notification_event (st : StreamOutState) (stream_id : Nat) (final : Bool) :
    StreamOutState :=
  send_stream_data st stream_id final

/-- `HostAgent.send_rawdata_event` (client.py 809-857), payload abstracted. -/
def send_rawdata_event (st : StreamOutState) (stream_id : Nat) (final : Bool) :
    StreamOutState :=
  send_stream_data st stream_id final

/-- The sequence_id values of the outbound signals of stream `s`, in enqueue
order. -/
def sequence_ids_of (st : StreamOutState) (s : Nat) : List Nat :=
  (st.out_signals.filter (fun d => d.stream_id == s)).map (fun d => d.sequence_id)

/-- C1: the claim says the sequence_id values enqueued for a stream by
send_operation_event, send_notification_event and send_rawdata_event are
exactly 0, 1, 2, ... with no repeats.  On a fresh stream the code emits
0, 0, 1, 2: `generate_sequence_id` stores 0 into the counter on the first call
and also returns that stored 0 on the second call, so sequence_id 0 is issued
twice.  This theorem evaluates four sends on fresh stream 5. -/
theorem outbound_sequence_ids_repeat_zero :
    sequence_ids_of
      (send_operation_event
        (send_rawdata_event
          (send_notification_event
            (send_operation_event ⟨[], []⟩ 5 false) 5 false) 5 false) 5 false) 5
      = [0, 0, 1, 2] ∧
    sequence_ids_of
      (send_operation_event
        (send_rawdata_event
          (send_notification_event
            (send_operation_event ⟨[], []⟩ 5 false) 5 false) 5 false) 5 false) 5
      ≠ [0, 1, 2, 3] := by
  constructor
  · rfl
  · decide

/-!
Inflight cap on inbound Custom requests (client.py lines 28, 339-367,
474-492).  The dispatcher decides on a `NormalRequestInfo` custom request:

    if self._inflight_requests_count > MAX_INFLIGHT_REQUESTS:
        self._put_rpc_error(req.Id(), -32000, "Too many requests", ...)
    else:
        t = threading.Thread(target=handle_worker, ...); t.start()

and `handle_worker` increments `_inflight_requests_count` when it starts.
-/

def MAX_INFLIGHT_REQUESTS : Nat := 128

inductive CustomDispatchAction where
  | reject_too_many (req_id : Nat)
  | spawn_worker (req_id : Nat)
  deriving DecidableEq

/-- The cap check of `HostAgent._main_loop` for a Custom request with
`NormalRequestInfo`, given the current inflight counter value. -/
def dispatch_normal_custom (inflight_requests_count : Nat) (req_id : Nat) :
    CustomDispatchAction :=
  if inflight_requests_count > MAX_INFLIGHT_REQUESTS
  then .reject_too_many req_id
  else .spawn_worker req_id

/-- The increment of `_inflight_requests_count` performed at the top of
`handle_worker` when a spawned worker starts executing. -/
def handle_worker_enter (inflight_requests_count : Nat) : Nat :=
  inflight_requests_count + 1

/-- C2: the claim says the number of concurrently executing handlers never
exceeds 128 and a request arriving at 128 inflight is rejected with -32000.
The code compares with `>` rather than `>=`: at inflight count 128 the request
is still handed to a worker, whose start pushes the count to 129, exceeding
MAX_INFLIGHT_REQUESTS; rejection only starts at count 129. -/
theorem inflight_cap_off_by_one :
    dispatch_normal_custom 128 7 = CustomDispatchAction.spawn_worker 7 ∧
    handle_worker_enter 128 = 129 ∧
    129 > MAX_INFLIGHT_REQUESTS ∧
    dispatch_normal_custom 129 8 = CustomDispatchAction.reject_too_many 8 := by
  decide

/-!
ToolInvoke dispatch (client.py lines 381-437).  After decoding the
`InternalToolInfo` the dispatcher does

    if tool_id not in self._internal_tools:
        logger.error("tool id does not exist")
        raise ValueError("tool id does not exist")
    handler = self._internal_tools[tool_id]
    ... threading.Thread(target=internal_tool_handler, ...).start()

The `raise` is not caught anywhere in `_main_loop`, so it propagates out of
the dispatcher loop: no response is written for the request and no further
envelopes are dispatched.  `-32603` is produced only inside
`internal_tool_handler`, i.e. for exceptions of an already-spawned handler.
-/

inductive DispatchEffect where
  /-- an error `TransportResponse` with this id and code is enqueued and the
  dispatcher loop continues with the next envelope -/
  | sends_response (req_id : Nat) (code : Int)
  /-- a worker thread is spawned for the request; the loop continues -/
  | spawns (req_id : Nat)
  /-- an uncaught exception is raised in the dispatcher loop: no response is
  written and the loop terminates -/
  | raises (msg : String)
  deriving DecidableEq

/-- The ToolInvoke branch of `HostAgent._main_loop`, given the registry of
internal tools (handlers abstracted to tokens). -/
def dispatch_tool_invoke (internal_tools : List (Nat × Nat))
    (req_id tool_id : Nat) : DispatchEffect :=
  match dictLookup internal_tools tool_id with
  | some _ => .spawns req_id
  | none => .raises "tool id does not exist"

/-- C3, counterexample: with an empty tool registry, a ToolInvoke for tool 42
with request id 7 raises a ValueError in the dispatcher loop; it does not send
a `-32603` response as the claim states. -/
theorem tool_invoke_unknown_tool_cex :
    dispatch_tool_invoke [] 7 42 = DispatchEffect.raises "tool id does not exist" ∧
    dispatch_tool_invoke [] 7 42 ≠ DispatchEffect.sends_response 7 (-32603) := by
  constructor
  · rfl
  · decide

/-- C3, amended: for every inbound ToolInvoke whose tool_id is absent from the
tool registry, the dispatcher raises an uncaught ValueError: no `-32603`
response carrying the request id is sent, and the dispatcher loop terminates
instead of processing subsequent envelopes. -/
theorem tool_invoke_unknown_tool_raises (internal_tools : List (Nat × Nat))
    (req_id tool_id : Nat) (h : dictLookup internal_tools tool_id = none) :
    dispatch_tool_invoke internal_tools req_id tool_id =
      DispatchEffect.raises "tool id does not exist" := by
  simp [dispatch_tool_invoke, h]

/-- C3, witness for the amended theorem at the empty registry. -/
theorem tool_invoke_unknown_tool_raises_witness :
    dispatch_tool_invoke [] 9 12 = DispatchEffect.raises "tool id does not exist" :=
  tool_invoke_unknown_tool_raises [] 9 12 rfl

/-!
Stream lifecycle (stream/stream_ctrl.py lines 25-88).  `create_stream`
registers the per-stream handler after a successful `StreamCtrl{New}` exchange
and `close_stream` unregisters it after a successful `StreamCtrl{Close}`
exchange; neither function touches `_stream_sequence_ids`, and nothing in
client.py ever deletes an entry from that table.
-/

/-- The two tables named by the claim: the per-stream handler table and the
per-stream sequence counters (handlers abstracted to tokens). -/
structure StreamTables where
  stream_handlers : List (Nat × Nat)
  stream_sequence_ids : List (Nat × Nat)
  deriving DecidableEq

/-- Effect of one outbound event send on the tables: `generate_sequence_id`
advances (or lazily creates) the per-stream counter. -/
def send_event_effect (t : StreamTables) (stream_id : Nat) : StreamTables :=
  { t with
    stream_sequence_ids := (generate_sequence_id t.stream_sequence_ids stream_id).2 }

/-- `n` consecutive outbound event sends on the stream. -/
def send_events_effect (t : StreamTables) (stream_id : Nat) : Nat → StreamTables
  | 0 => t
  | n + 1 => send_events_effect (send_event_effect t stream_id) stream_id n

theorem send_events_effect_handlers (t : StreamTables) (stream_id n : Nat) :
    (send_events_effect t stream_id n).stream_handlers = t.stream_handlers := by
  induction n generalizing t with
  | zero => rfl
  | succ n ih => simpa [send_events_effect] using ih (send_event_effect t stream_id)

/-- The parts of the agent state observable by the shutdown path (frames as
opaque byte lists, callbacks as tokens).  `invoked_callbacks` records, in
order, every pending-request callback that has been invoked. -/
structure ShutdownState where
  inflight_requests_count : Nat
  send_queue : List (List Nat)
  pending_requests : List (Nat × Nat)
  invoked_callbacks : List Nat
  deriving DecidableEq

/-- The state at `os._exit(0)`. -/
structure ExitState where
  frames_written : List (List Nat)
  pending_requests : List (Nat × Nat)
  invoked_callbacks : List Nat
  deriving DecidableEq

/-- `send_remaining_data` of `_send_thread`: drain the send queue, then write
the zero-length terminator frame (represented as the empty frame `[]`). -/
def send_remaining_data (send_queue : List (List Nat)) : List (List Nat) :=
  send_queue ++ [[]]

/-- `stop_worker` of `HostAgent.stop`, taken at the instant its spin loop has
observed `_inflight_requests_count = 0`: fire the stop event (which makes the
sender run `send_remaining_data` and the receiver return), join both threads,
close the socket and exit.  The pending-request table and the set of invoked
callbacks are not touched. -/
def stop_worker (st : ShutdownState) : ExitState :=
  { frames_written := send_remaining_data st.send_queue,
    pending_requests := st.pending_requests,
    invoked_callbacks := st.invoked_callbacks }

/-- C5, counterexample: an agent with one pending outbound request (id 3,
callback token 9) and an empty send queue is stopped.  At process exit the
entry is still in the pending table and no callback has been invoked,
contradicting the claim that every pending callback is invoked with an error
response before exit. -/
theorem stop_leaves_pending_cex :
    (stop_worker ⟨0, [], [(3, 9)], []⟩).pending_requests = [(3, 9)] ∧
    (stop_worker ⟨0, [], [(3, 9)], []⟩).invoked_callbacks = [] := by
  constructor
  · rfl
  · rfl

/-- C5, amended: during shutdown the sender drains the send queue and writes
the zero-length terminator, but no pending-request completion callback is
invoked: the pending-request table is carried to process exit unchanged, so an
exec_request caller whose response never arrived stays blocked until
`os._exit(0)`. -/
theorem stop_drains_send_queue_not_pending (st : ShutdownState) :
    (stop_worker st).frames_written = st.send_queue ++ [[]] ∧
    (stop_worker st).pending_requests = st.pending_requests ∧
    (stop_worker st).invoked_callbacks = st.invoked_callbacks :=
  ⟨rfl, rfl, rfl⟩

/-!
Receiver framing (client.py lines 1012-1048, `HostAgent._recv_thread`).
`recv_data` reads an 8-byte little-endian length prefix (returning False, i.e.
stop reading, when the socket is closed and `recv` yields 0 bytes), then reads
`length` payload bytes (returning False when the peer closes mid-frame) and
puts the payload on the receive queue for the dispatcher, returning True to
keep reading.  The byte stream available on the socket is modelled as a list
of byte values.
-/

/-- Little-endian interpretation of a byte list, as `int.from_bytes(data,
byteorder="little")`. -/
def bytesToNatLE (bs : List Nat) : Nat :=
  bs.foldr (fun b acc => b + 256 * acc) 0

inductive RecvStep where
  /-- `recv_data` returned False: nothing is enqueued and the receiver stops
  reading -/
  | stop_reading
  /-- `recv_data` put `frame` on the receive queue and returned True; `rest`
  is the unread remainder of the stream -/
  | deliver (frame : List Nat) (rest : List Nat)
  deriving DecidableEq

/-- One execution of `recv_data` on the available byte stream. -/
def recv_data (input : List Nat) : RecvStep :=
  if input.isEmpty then .stop_reading
  else
    let length := bytesToNatLE (input.take 8)
    let rest := input.drop 8
    if rest.length < length then .stop_reading
    else .deliver (rest.take length) (rest.drop length)

/-- C6: the claim says a frame whose u64 length prefix is 0 is treated as
end-of-stream: nothing delivered, reading stops.  The code's `while len(data)
< length` loop is skipped for length 0 and `recv_data` enqueues the empty
payload and returns True: an empty envelope IS delivered to the dispatcher and
the receiver keeps reading the following bytes, unlike the socket-closed case
which yields `stop_reading`. -/
theorem zero_length_frame_delivered :
    recv_data [0, 0, 0, 0, 0, 0, 0, 0] = RecvStep.deliver [] [] ∧
    recv_data ([0, 0, 0, 0, 0, 0, 0, 0] ++ [2, 0, 0, 0, 0, 0, 0, 0, 7, 7])
      = RecvStep.deliver [] [2, 0, 0, 0, 0, 0, 0, 0, 7, 7] ∧
    recv_data [0, 0, 0, 0, 0, 0, 0, 0] ≠ RecvStep.stop_reading ∧
    recv_data [] = RecvStep.stop_reading := by
  refine ⟨rfl, rfl, ?_, rfl⟩
  decide

/-!
Outbound request / inbound response pairing (client.py lines 505-519,
698-720, 881-913).  `_put_rpc_request` allocates `new_id = self._global_id`,
increments the counter and stores `{time, obj, cb}` under `new_id` in
`_pending_requests`.  The response branch of `_main_loop` looks the id up
under the pending-requests lock, invokes the stored callback and deletes the
entry; an unknown id is only logged.  `exec_request` publishes a request via
`_put_rpc_request`, blocks on a condition variable until the callback has
delivered the `TransportResponse`, then raises `RuntimeError(resp.Message())`
when `resp.Code() != 0` and otherwise returns the response payload.
-/

structure TransportResponse where
  id : Nat
  code : Int
  message : String
  response : List Nat
  deriving DecidableEq

/-- The request-pairing part of the agent state: the outbound id counter and
the pending-request table (completion callbacks abstracted to tokens). -/
structure RpcState where
  global_id : Nat
  pending_requests : List (Nat × Nat)
  deriving DecidableEq

/-- `HostAgent._put_rpc_request`: allocate the next id, register the callback
in the pending table, enqueue the frame (enqueueing abstracted away).  Returns
the allocated id with the new state. -/
def put_rpc_request (st : RpcState) (cb : Nat) : Nat × RpcState :=
  (st.global_id,
   { global_id := st.global_id + 1,
     pending_requests := dictInsert st.pending_requests st.global_id cb })

/-- The TransportResponse branch of `HostAgent._main_loop`: look the response
id up in the pending table; when present, invoke the stored callback with the
response and delete the entry; when absent, only log.  The first component is
the callback invoked on this response, if any. -/
def process_response (st : RpcState) (resp : TransportResponse) :
    Option Nat × RpcState :=
  match dictLookup st.pending_requests resp.id with
  | none => (none, st)
  | some cb =>
      (some cb, { st with pending_requests := dictErase st.pending_requests resp.id })

/-- The tail of `HostAgent.exec_request` once the paired response has been
delivered by the callback: raise on nonzero code, else return the payload. -/
def exec_request_complete (resp : TransportResponse) : Except String (List Nat) :=
  if resp.code ≠ 0 then .error resp.message else .ok resp.response

/-- `HostAgent.exec_request`, composed with the dispatcher's response
processing: publish the request, then process the response `resp` the host
sends back for it.  The first component is `none` when the callback never
fired (the caller would stay blocked on the condition variable), otherwise the
value `exec_request` produces. -/
def exec_request (st : RpcState) (resp : TransportResponse) :
    Option (Except String (List Nat)) × RpcState :=
  let pr := put_rpc_request st 0
  let done := process_response pr.2 resp
  match done.1 with
  | none => (none, done.2)
  | some _ => (some (exec_request_complete resp), done.2)

/-- C7: once the response paired with the request published by exec_request
arrives (it carries the id that `put_rpc_request` allocated, i.e. the current
value of the global id counter), exec_request raises a runtime error carrying
the response's message string when the code is nonzero, and returns the
response payload when the code is 0. -/
theorem exec_request_raises_or_returns (st : RpcState) (resp : TransportResponse)
    (hid : resp.id = st.global_id) :
    (resp.code ≠ 0 → (exec_request st resp).1 = some (Except.error resp.message)) ∧
    (resp.code = 0 → (exec_request st resp).1 = some (Except.ok resp.response)) := by
  have hfire : dictLookup (dictInsert st.pending_requests st.global_id 0) resp.id
      = some 0 := by
    rw [hid]; exact dictLookup_dictInsert_self st.pending_requests st.global_id 0
  constructor
  · intro hc
    simp [exec_request, put_rpc_request, process_response, hfire,
          exec_request_complete, hc]
  · intro hc
    simp [exec_request, put_rpc_request, process_response, hfire,
          exec_request_complete, hc]

/-- C7, witness: a failing response (code 5, message boom) is raised as an
error with that message; a successful response (code 0) yields its payload. -/
theorem exec_request_raises_or_returns_witness :
    (exec_request ⟨0, []⟩ ⟨0, 5, "boom", [7]⟩).1 = some (Except.error "boom") ∧
    (exec_request ⟨0, []⟩ ⟨0, 0, "", [7]⟩).1 = some (Except.ok [7]) :=
  ⟨(exec_request_raises_or_returns ⟨0, []⟩ ⟨0, 5, "boom", [7]⟩ rfl).1 (by decide),
   (exec_request_raises_or_returns ⟨0, []⟩ ⟨0, 0, "", [7]⟩ rfl).2 rfl⟩

/-- C10: the completion callback stored for an outbound request id is invoked
at most once.  Processing a response invokes exactly the callback the pending
table holds for its id (none when the id is unknown) and removes the entry, so
processing a second response with the same id invokes no callback. -/
theorem response_callback_at_most_once (st : RpcState) (resp : TransportResponse) :
    (process_response st resp).1 = dictLookup st.pending_requests resp.id ∧
    (process_response (process_response st resp).2 resp).1 = none := by
  constructor
  · unfold process_response
    cases h : dictLookup st.pending_requests resp.id <;> simp [h]
  · unfold process_response
    cases h : dictLookup st.pending_requests resp.id with
    | none => simp [h]
    | some cb => simp [h, dictLookup_dictErase_self]

/-!
Internal tool registration, `HostAgent.set_internal_tool` (client.py lines
616-620): `self._internal_tools[tid] = handler`, with no membership check (in
contrast to `register_handler`, lines 651-666, which raises on a duplicate
method name).
-/

/-- `HostAgent.set_internal_tool` (handlers abstracted to tokens). -/
def set_internal_tool (internal_tools : List (Nat × Nat)) (tid handler : Nat) :
    List (Nat × Nat) :=
  dictInsert internal_tools tid handler

/-- C8, counterexample: registering handler 1 under tool id 42 and then
handler 2 under the same id does not fail; the registry afterwards maps 42 to
the second handler, not the first, contradicting the claim that the second
registration is rejected and the first mapping kept. -/
theorem set_internal_tool_overwrite_cex :
    dictLookup (set_internal_tool (set_internal_tool [] 42 1) 42 2) 42 = some 2 ∧
    dictLookup (set_internal_tool (set_internal_tool [] 42 1) 42 2) 42 ≠ some 1 := by
  constructor
  · rfl
  · decide

/-- C8, amended: set_internal_tool performs no duplicate check: a second
registration under an already-registered tool id succeeds and silently
overwrites, leaving the registry mapping the id to the second handler. -/
theorem set_internal_tool_overwrites (internal_tools : List (Nat × Nat))
    (tid h1 h2 : Nat) :
    dictLookup (set_internal_tool (set_internal_tool internal_tools tid h1) tid h2)
      tid = some h2 :=
  dictLookup_dictInsert_self _ tid h2

/-!
Custom-request worker result conversion, `handle_worker` (client.py lines
339-367):

    result = handler_obj.handle(ctx)
    if result is None:
        result = b""
    else:
        if isinstance(result, str):
            result = result.encode("utf-8")
        if not isinstance(result, bytes):
            raise ValueError(f"Invalid response type: ...")
    ... CustomResponse with data=result ... self._put_rpc_response(req_id, ...)

with the raise caught by the surrounding `except`, which sends
`self._put_rpc_error(req_id, -32603, str(e), "Internal error: ")`.
-/

/-- The python value returned by a custom-request handler, as far as
`handle_worker` inspects it. -/
inductive PyValue where
  | pyNone
  | pyStr (s : String)
  | pyBytes (b : List Nat)
  /-- a value of any other python type; `ty` stands for `type(result)` -/
  | pyOther (ty : String)
  deriving DecidableEq

/-- UTF-8 encoding of a python str, `result.encode("utf-8")`. -/
def utf8_encode (s : String) : List Nat :=
  (s.data.flatMap String.utf8EncodeChar).map UInt8.toNat

def pyTypeName : PyValue → String
  | .pyNone => "NoneType"
  | .pyStr _ => "str"
  | .pyBytes _ => "bytes"
  | .pyOther ty => ty

/-- Lines 344-351 of `handle_worker`: normalize the handler result to bytes,
or raise a ValueError for a type that is neither None, str nor bytes. -/
def convert_result (result : PyValue) : Except String (List Nat) :=
  match result with
  | .pyNone => .ok []
  | r =>
      let r1 := match r with
        | .pyStr s => PyValue.pyBytes (utf8_encode s)
        | x => x
      match r1 with
      | .pyBytes b => .ok b
      | x => .error ("Invalid response type: " ++ pyTypeName x)

inductive WorkerReply where
  /-- `_put_rpc_response(req_id, CustomResponse{data})` -/
  | rpc_response (req_id : Nat) (custom_response_data : List Nat)
  /-- `_put_rpc_error(req_id, code, message, "Internal error: ")` -/
  | rpc_error (req_id : Nat) (code : Int) (message : String)
  deriving DecidableEq

/-- `handle_worker` on a handler that ran to completion and returned
`result`: wrap the converted bytes in a CustomResponse on success, send a
`-32603` error response when the conversion raised. -/
def handle_worker (req_id : Nat) (result : PyValue) : WorkerReply :=
  match convert_result result with
  | .ok data => .rpc_response req_id data
  | .error e => .rpc_error req_id (-32603) e

/-- C9: for an inbound Custom request whose handler runs to completion: a None
result yields a success response with empty CustomResponse data, a str result
yields its UTF-8 encoding, a bytes result yields those bytes unchanged, and a
result of any other type yields an error response with code -32603. -/
theorem handle_worker_result_conversion (req_id : Nat) (s : String)
    (b : List Nat) (ty : String) :
    handle_worker req_id PyValue.pyNone = WorkerReply.rpc_response req_id [] ∧
    handle_worker req_id (PyValue.pyStr s)
      = WorkerReply.rpc_response req_id (utf8_encode s) ∧
    handle_worker req_id (PyValue.pyBytes b) = WorkerReply.rpc_response req_id b ∧
    handle_worker req_id (PyValue.pyOther ty)
      = WorkerReply.rpc_error req_id (-32603) ("Invalid response type: " ++ ty) :=
  ⟨rfl, rfl, rfl, rfl⟩

end Spear
